import Mathlib

/-!
# Verification of `desktop_app/src/packer_logic.py`

A shallow embedding of the command builder and process runner of the
desktop front-end.  Python string primitives (`str.startswith`,
`str.split` with a one-character separator, substring test, `os.path.join`)
are embedded as structurally recursive functions on `String.data`, so that
every definition evaluates inside the kernel.  The effectful parts of the
runner (filesystem tests, `os.chmod`, `subprocess.run`) are parameterised
by an explicit environment record; the runner's own observable effects
(whether a subprocess invocation happened, which files it wrote) are
reported in the outcome record.
-/

/-- `listStarts pat cs` is true when `pat` is an initial segment of `cs`. -/
def listStarts : List Char → List Char → Bool
  | [], _ => true
  | _ :: _, [] => false
  | a :: as, b :: bs => a == b && listStarts as bs

/-- Embeds Python `s.startswith(p)`. -/
def strStartsWith (s p : String) : Bool := listStarts p.data s.data

/-- `listHasInfix pat cs` is true when `pat` occurs contiguously in `cs`. -/
def listHasInfix (pat : List Char) : List Char → Bool
  | [] => pat.isEmpty
  | c :: rest => listStarts pat (c :: rest) || listHasInfix pat rest

/-- Embeds Python `pat in s` (substring containment). -/
def strContainsSub (s pat : String) : Bool := listHasInfix pat.data s.data

/-- True when the last character of the list is a slash (used by `ospJoin`). -/
def lastIsSlash : List Char → Bool
  | [] => false
  | [c] => c == '/'
  | _ :: c :: rest => lastIsSlash (c :: rest)

/-- Embeds Python `s.split(sep)` for a one-character separator:
`splitChar sep cs` returns the groups between occurrences of `sep`. -/
def splitChar (sep : Char) : List Char → List (List Char)
  | [] => [[]]
  | c :: rest =>
    match splitChar sep rest with
    | [] => [[]]
    | g :: gs => if c = sep then [] :: g :: gs else (c :: g) :: gs

/-- Embeds `os.path.join(a, b)` with POSIX separators: an absolute second
component replaces the first, otherwise a separator is inserted unless one
is already present. -/
def ospJoin (a b : String) : String :=
  if strStartsWith b "/" then b
  else if a = "" then b
  else if lastIsSlash a.data then a ++ b
  else a ++ "/" ++ b

/-- Lines 13-21 of `get_bundled_repomix_path`: the platform-dependent
executable filename; `none` models the `EnvironmentError` raised on an
unsupported platform. -/
def platformExecutableName (platform : String) : Option String :=
  if platform == "win32" then some "repomix-placeholder-standalone-win.exe"
  else if platform == "darwin" then some "repomix-placeholder-standalone-macos"
  else if strStartsWith platform "linux" then some "repomix-placeholder-standalone-linux"
  else none

/-- Outcome of `subprocess.run` as the runner observes it: a completed
process with exit code and captured streams, a `FileNotFoundError` at
launch, or any other launch-time exception. -/
inductive ProcOutcome where
  | completed (returncode : Int) (stdout stderr : String)
  | fileNotFound
  | otherExn (msg : String)
deriving DecidableEq

/-- The ambient state the Python code consults: interpreter/platform data,
the filesystem, permission bits, the behaviour of `os.chmod`, and the
subprocess.  `whichLookup` models a search-path (`shutil.which`-style)
lookup; the code under verification never consults it, it is present so
that the spec's search-path-based resolution order can be stated against
the same environment. -/
structure Env where
  platform : String
  frozen : Bool
  hasMeipass : Bool
  meipass : String
  executableDir : String
  projectRoot : String
  cwd : String
  pathExists : String → Bool
  whichLookup : String → Option String
  xOkBefore : Bool
  chmodExn : Option String
  xOkAfter : Bool
  proc : ProcOutcome
  outFileAfterProc : Bool

/-- Result of a Python call: either an exception escaped (`raised`) or a
value was returned. -/
inductive PyResult (α : Type) where
  | raised (msg : String)
  | returned (val : α)
deriving DecidableEq

/-- `get_bundled_repomix_path` (lines 7-53): pick the platform-specific
filename, then resolve it under the bundle directory when frozen
(one-file extraction directory if present, else next to the executable),
otherwise under the fixed development directory relative to the project
root.  The development-mode warning prints have no observable effect on
the returned value and are not modelled. -/
def get_bundled_repomix_path (env : Env) : PyResult String :=
  match platformExecutableName env.platform with
  | none => PyResult.raised ("Unsupported platform: " ++ env.platform)
  | some executable_name =>
    if env.frozen then
      let application_path := if env.hasMeipass then env.meipass else env.executableDir
      let bundled_repomix_dir := ospJoin application_path "bundled_repomix_bin"
      PyResult.returned (ospJoin bundled_repomix_dir executable_name)
    else
      PyResult.returned (ospJoin (ospJoin (ospJoin (ospJoin env.projectRoot "build_prep") "repomix_cli") "dist") executable_name)

/-- `is_url` (lines 55-61): HTTP(S) scheme test, or the basic
`user/repo` shorthand test `len(path_string.split('/')) == 2`. -/
def is_url (path_string : String) : Bool :=
  strStartsWith path_string "http://" ||
  strStartsWith path_string "https://" ||
  (splitChar '/' path_string.data).length == 2

/-- The options record passed to `run_repomix_command` (lines 63-76). -/
structure PackOptions where
  input_path : String
  output_style : String
  output_file_name : String
  include_patterns : Option String
  ignore_patterns : Option String
  no_file_summary : Bool
  no_directory_structure : Bool
  show_line_numbers : Bool
  parsable_style : Bool
  compress_code : Bool
  remove_comments : Bool
  remove_empty_lines : Bool
deriving DecidableEq

/-- Python truthiness of a `str | None` value (`if include_patterns:`). -/
def pyTruthy : Option String → Bool
  | none => false
  | some s => !(s == "")

/-- Lines 109-113: the optional `--include`/`--ignore` pairs. -/
def patternArgs (opts : PackOptions) : List String :=
  (if pyTruthy opts.include_patterns then ["--include", opts.include_patterns.getD ""] else []) ++
  (if pyTruthy opts.ignore_patterns then ["--ignore", opts.ignore_patterns.getD ""] else [])

/-- Lines 115-129: the seven boolean switches, appended in source order. -/
def flagArgs (opts : PackOptions) : List String :=
  (if opts.no_file_summary then ["--no-file-summary"] else []) ++
  (if opts.no_directory_structure then ["--no-directory-structure"] else []) ++
  (if opts.show_line_numbers then ["--output-show-line-numbers"] else []) ++
  (if opts.parsable_style then ["--parsable-style"] else []) ++
  (if opts.compress_code then ["--compress"] else []) ++
  (if opts.remove_comments then ["--remove-comments"] else []) ++
  (if opts.remove_empty_lines then ["--remove-empty-lines"] else [])

/-- Lines 94-131: build `cmd_parts` and the output file path.  The error
case models the early return for a missing local input (lines 100-101);
its payload is the message placed in the stderr slot of the returned
tuple. -/
def buildCmdParts (env : Env) (opts : PackOptions) (exePath : String) :
    Except String (List String × String) :=
  let inputPart : Except String (List String) :=
    if is_url opts.input_path then
      Except.ok [exePath, "--remote", opts.input_path]
    else if !(env.pathExists opts.input_path) then
      Except.error ("Input path not found: " ++ opts.input_path)
    else
      Except.ok [exePath, opts.input_path]
  match inputPart with
  | Except.error e => Except.error e
  | Except.ok front =>
    let output_file_path := ospJoin env.cwd opts.output_file_name
    Except.ok (front ++ ["-o", output_file_path, "--style", opts.output_style] ++
      patternArgs opts ++ flagArgs opts ++ ["--quiet"], output_file_path)

/-- The runner's result tuple `(success, stdout, stderr, output_file_path)`
together with the runner's observable effects: whether `subprocess.run`
was invoked, and the list of `(path, content)` file writes the runner
itself performed. -/
structure RunOutcome where
  success : Bool
  stdout : String
  stderr : String
  outFile : String
  launched : Bool
  writes : List (String × String)
deriving DecidableEq

/-- Lines 152-155: the content the runner writes when it simulates the
placeholder's output file. -/
def simulatedContent (output_file_name stdout stderr : String) : String :=
  ("Simulated output for " ++ output_file_name ++ "\n") ++
  ("stdout: " ++ stdout ++ "\n") ++
  ("stderr: " ++ stderr ++ "\n")

/-- Lines 161-163: the silent-failure message, embedding the captured
streams when they are non-empty. -/
def silentFailureMsg (outPath stdout stderr : String) : String :=
  let base := "Repomix command appeared to succeed (exit code 0) but output file was not found at " ++ outPath ++ "."
  let base := if stderr == "" then base else base ++ (" STDERR: " ++ stderr)
  if stdout == "" then base else base ++ (" STDOUT: " ++ stdout)

/-- Lines 166-168: the non-zero-exit failure message. -/
def toolFailureMsg (returncode : Int) (stdout stderr : String) : String :=
  ("Repomix failed with exit code " ++ toString returncode ++ ".\n") ++
  ("Stdout:\n" ++ stdout ++ "\n") ++
  ("Stderr:\n" ++ stderr)

/-- Lines 133-174: run the subprocess and classify the result.
`env.outFileAfterProc` is whether the output file exists once the
subprocess has returned; when it is absent and the executable path
contains `repomix-placeholder`, the runner writes a simulated output file
itself (lines 150-155) and the subsequent existence test succeeds. -/
def execAndClassify (env : Env) (opts : PackOptions) (exePath outPath : String) : RunOutcome :=
  match env.proc with
  | ProcOutcome.fileNotFound =>
    ⟨false, "", "Repomix command execution failed (FileNotFoundError). Ensure npx or repomix is correctly installed and in PATH.", "", true, []⟩
  | ProcOutcome.otherExn msg =>
    ⟨false, "", "An unexpected error occurred while running Repomix: " ++ msg, "", true, []⟩
  | ProcOutcome.completed returncode stdout stderr =>
    if returncode == 0 then
      let simulate := !env.outFileAfterProc && strContainsSub exePath "repomix-placeholder"
      let writes := if simulate then [(outPath, simulatedContent opts.output_file_name stdout stderr)] else []
      if env.outFileAfterProc || simulate then
        ⟨true, stdout, stderr, outPath, true, writes⟩
      else
        ⟨false, stdout, silentFailureMsg outPath stdout stderr, "", true, []⟩
    else
      ⟨false, stdout, toolFailureMsg returncode stdout stderr, "", true, []⟩

/-- Lines 85-92: the non-Windows execute-permission check and chmod
repair.  `some failure` when the runner returns early at this stage. -/
def permissionFailure (env : Env) (exePath : String) : Option RunOutcome :=
  if env.platform == "win32" then none
  else if env.xOkBefore then none
  else
    match env.chmodExn with
    | some msg => some ⟨false, "", "Error making Repomix executable (" ++ exePath ++ "): " ++ msg, "", false, []⟩
    | none =>
      if !env.xOkAfter then
        some ⟨false, "", "Bundled Repomix executable (" ++ exePath ++ ") found but is not executable even after chmod.", "", false, []⟩
      else none

/-- `run_repomix_command` (lines 63-174), end to end.  `PyResult.raised`
models an exception escaping the function: the resolution call on line 79
sits outside the `try` block, so the unsupported-platform
`EnvironmentError` propagates to the caller. -/
def run_repomix_command (env : Env) (opts : PackOptions) : PyResult RunOutcome :=
  match get_bundled_repomix_path env with
  | PyResult.raised msg => PyResult.raised msg
  | PyResult.returned repomix_exe_path =>
    if !(env.pathExists repomix_exe_path) then
      PyResult.returned ⟨false, "", "Bundled Repomix executable not found at " ++ repomix_exe_path ++ ". Please ensure it\x27s packaged correctly.", "", false, []⟩
    else
      match permissionFailure env repomix_exe_path with
      | some r => PyResult.returned r
      | none =>
        match buildCmdParts env opts repomix_exe_path with
        | Except.error msg => PyResult.returned ⟨false, "", msg, "", false, []⟩
        | Except.ok (_cmd_parts, output_file_path) =>
          PyResult.returned (execAndClassify env opts repomix_exe_path output_file_path)

/-!
## Spec-side definitions

`remoteSpec` renders the spec's classification sentence; `specResolve`
renders the spec's executable-resolution order, to be compared with the
code's `get_bundled_repomix_path`.
-/

/-- The spec's classification of a remote input, following its words: the
string starts with an HTTP(S) scheme prefix, or it has exactly two path
segments separated by a slash (splitting on the slash yields exactly two
segments). -/
def remoteSpec (s : String) : Prop :=
  strStartsWith s "http://" = true ∨ strStartsWith s "https://" = true ∨
  (splitChar '/' s.data).length = 2

/-- The environment of the spec's resolution procedure: the search-path
lookups for the package-manager shim and the directly-installed binary,
and the standalone-packaging data. -/
structure SpecResolveEnv where
  shimOnPath : Option String
  binaryOnPath : Option String
  standalonePackaged : Bool
  installRelativePath : String
deriving DecidableEq

/-- Modelled from the spec's words (refinement comparison only): prefer a
package-manager shim on the search path, else a directly-installed binary
on the search path, else, when packaged standalone, a path relative to
the install location; fail with ExecutableNotFound when none resolve. -/
def specResolve (e : SpecResolveEnv) : Except String String :=
  match e.shimOnPath with
  | some p => Except.ok p
  | none =>
    match e.binaryOnPath with
    | some p => Except.ok p
    | none =>
      if e.standalonePackaged then Except.ok e.installRelativePath
      else Except.error "ExecutableNotFound"

/-- Reads the spec's resolution environment out of the code's environment:
the shim and binary names come from the runner's own diagnostics
(`npx`/`repomix`, line 172), the standalone case from `sys.frozen`. -/
def specEnvOf (env : Env) : SpecResolveEnv :=
  { shimOnPath := env.whichLookup "npx",
    binaryOnPath := env.whichLookup "repomix",
    standalonePackaged := env.frozen,
    installRelativePath :=
      ospJoin (ospJoin env.executableDir "bundled_repomix_bin")
        ((platformExecutableName env.platform).getD "") }

/-- The claim that the code's resolution follows the spec's order on a
given environment. -/
def resolvesLikeSpec (env : Env) : Prop :=
  ∀ p, specResolve (specEnvOf env) = Except.ok p ↔
    get_bundled_repomix_path env = PyResult.returned p

/-!
## Concrete environments used by witnesses and counterexamples
-/

/-- Development-mode resolved path on Linux for project root `/proj`. -/
def exeDevLinux : String := "/proj/build_prep/repomix_cli/dist/repomix-placeholder-standalone-linux"

/-- A Linux development environment where the resolved executable and the
local directories `sample` and `./sample` exist, permissions are fine and
the subprocess exits cleanly having produced the output file. -/
def envA : Env :=
  { platform := "linux", frozen := false, hasMeipass := false, meipass := "",
    executableDir := "/app", projectRoot := "/proj", cwd := "/work",
    pathExists := fun s => s == exeDevLinux || s == "sample" || s == "./sample",
    whichLookup := fun _ => none,
    xOkBefore := true, chmodExn := none, xOkAfter := true,
    proc := ProcOutcome.completed 0 "" "", outFileAfterProc := true }

/-- Options: local input `sample`, xml style, file name `out.xml`, no
patterns, all seven booleans false. -/
def optsA : PackOptions :=
  ⟨"sample", "xml", "out.xml", none, none, false, false, false, false, false, false, false⟩

/-- The scenario options of the spec, input written `./sample`. -/
def optsDotSample : PackOptions :=
  ⟨"./sample", "xml", "out.xml", none, none, false, false, false, false, false, false, false⟩

/-- Remote-input options towards `remote.md`. -/
def optsRemote : PackOptions :=
  ⟨"https://github.com/octocat/Spoon-Knife", "md", "remote.md", none, none,
    false, false, false, false, false, false, false⟩

/-- Like `envA`, but the subprocess exits 0 with captured streams `OUT` /
`ERR` and the output file does not exist afterwards. -/
def envSilent : Env :=
  { envA with proc := ProcOutcome.completed 0 "OUT" "ERR", outFileAfterProc := false }

/-- Like `envA`, but a package-manager shim is present on the search
path. -/
def envShim : Env :=
  { envA with whichLookup := fun n => if n == "npx" then some "/usr/bin/npx" else none }

/-!
## Helper lemmas
-/

/-- Appending on the left of a non-empty string stays non-empty. -/
theorem str_append_ne_empty (x y : String) (h : x ≠ "") : x ++ y ≠ "" := by
  intro hc
  have hlen := congrArg String.length hc
  rw [String.length_append] at hlen
  have h0 : ("" : String).length = 0 := rfl
  have hx : x.length = 0 := by omega
  exact h (String.ext (List.length_eq_zero.mp hx))

/-- `os.path.join` of a non-empty directory is non-empty. -/
theorem ospJoin_ne_empty (a b : String) (ha : a ≠ "") : ospJoin a b ≠ "" := by
  unfold ospJoin
  split
  next hb =>
    intro hc
    subst hc
    exact absurd hb (by decide)
  next =>
    split
    next => exact str_append_ne_empty a b ha
    next => exact str_append_ne_empty (a ++ "/") b (str_append_ne_empty a "/" ha)

/-- The seven switches in their source order. -/
def allFlagSwitches : List String :=
  ["--no-file-summary", "--no-directory-structure", "--output-show-line-numbers",
   "--parsable-style", "--compress", "--remove-comments", "--remove-empty-lines"]

/-- Every element of `patternArgs` is a pattern flag or a pattern value. -/
theorem mem_patternArgs {x : String} {opts : PackOptions} (hx : x ∈ patternArgs opts) :
    x = "--include" ∨ x = "--ignore" ∨
    x = opts.include_patterns.getD "" ∨ x = opts.ignore_patterns.getD "" := by
  unfold patternArgs at hx
  rcases List.mem_append.mp hx with h | h <;> split at h <;> simp at h <;> tauto

/-- Every element of `flagArgs` is one of the seven switches. -/
theorem mem_flagArgs {x : String} {opts : PackOptions} (hx : x ∈ flagArgs opts) :
    x ∈ allFlagSwitches := by
  unfold flagArgs at hx
  simp only [List.mem_append] at hx
  rcases hx with ((((((h | h) | h) | h) | h) | h) | h) <;>
    (split at h <;> simp_all [allFlagSwitches])

/-- A permission-stage early return always carries a false success flag. -/
theorem permissionFailure_success {env : Env} {p : String} {r : RunOutcome}
    (h : permissionFailure env p = some r) : r.success = false := by
  unfold permissionFailure at h
  split at h
  · cases h
  · split at h
    · cases h
    · split at h
      · cases h
        rfl
      · split at h
        · cases h
          rfl
        · cases h

/-- Once the executable is resolved, present, and the permission stage
passes, the runner is the builder followed by execution. -/
theorem run_eq_of_checks (env : Env) (opts : PackOptions) (exePath : String)
    (hres : get_bundled_repomix_path env = PyResult.returned exePath)
    (hex : env.pathExists exePath = true)
    (hperm : permissionFailure env exePath = none) :
    run_repomix_command env opts =
      (match buildCmdParts env opts exePath with
       | Except.error msg => PyResult.returned ⟨false, "", msg, "", false, []⟩
       | Except.ok (_, output_file_path) =>
         PyResult.returned (execAndClassify env opts exePath output_file_path)) := by
  unfold run_repomix_command
  rw [hres]
  simp [hex, hperm]

/-- On a supported platform the resolved executable path has the
frozen-dependent shape computed by `get_bundled_repomix_path`. -/
theorem get_bundled_eq (env : Env) (name : String)
    (hname : platformExecutableName env.platform = some name) :
    get_bundled_repomix_path env =
      (if env.frozen then
        PyResult.returned (ospJoin (ospJoin (if env.hasMeipass then env.meipass
          else env.executableDir) "bundled_repomix_bin") name)
       else
        PyResult.returned (ospJoin (ospJoin (ospJoin (ospJoin env.projectRoot "build_prep")
          "repomix_cli") "dist") name)) := by
  unfold get_bundled_repomix_path
  rw [hname]

/-- Unfolding of the runner once the resolution step has returned a
path. -/
theorem run_unfold_returned (env : Env) (opts : PackOptions) (p : String)
    (hres : get_bundled_repomix_path env = PyResult.returned p) :
    run_repomix_command env opts =
      (if (!env.pathExists p) = true then
        PyResult.returned ⟨false, "", "Bundled Repomix executable not found at " ++ p ++
          ". Please ensure it\x27s packaged correctly.", "", false, []⟩
       else
        match permissionFailure env p with
        | some r => PyResult.returned r
        | none =>
          match buildCmdParts env opts p with
          | Except.error msg => PyResult.returned ⟨false, "", msg, "", false, []⟩
          | Except.ok (_c, ofp) => PyResult.returned (execAndClassify env opts p ofp)) := by
  unfold run_repomix_command
  rw [hres]

/-!
## Claims
-/

/-- C1: the command builder classifies an input as remote exactly when it
starts with an HTTP(S) scheme prefix or splits into exactly two
slash-separated segments; every remote input is passed as the adjacent
pair `--remote` followed by the input string, and a local input is passed
positionally with no `--remote` anywhere in the list (given that none of
the caller-supplied strings is itself the literal `--remote`). -/
theorem claim1_remote_classification (env : Env) (opts : PackOptions) (exePath : String)
    (hexe : exePath ≠ "--remote")
    (hout : ospJoin env.cwd opts.output_file_name ≠ "--remote")
    (hsty : opts.output_style ≠ "--remote")
    (hinc : opts.include_patterns.getD "" ≠ "--remote")
    (hign : opts.ignore_patterns.getD "" ≠ "--remote")
    (hin : opts.input_path ≠ "--remote") :
    (is_url opts.input_path = true ↔ remoteSpec opts.input_path)
    ∧ (∀ l p, buildCmdParts env opts exePath = Except.ok (l, p) →
        (is_url opts.input_path = true →
          ∃ t, l = exePath :: "--remote" :: opts.input_path :: t)
        ∧ (is_url opts.input_path = false →
          (∃ t, l = exePath :: opts.input_path :: t) ∧ "--remote" ∉ l)) := by
  constructor
  · simp [is_url, remoteSpec, Bool.or_eq_true, beq_iff_eq, or_assoc]
  · intro l p hbuild
    constructor
    · intro hurl
      simp only [buildCmdParts, hurl, if_true, List.append_assoc, List.cons_append,
        List.nil_append] at hbuild
      rw [Except.ok.injEq, Prod.mk.injEq] at hbuild
      obtain ⟨hl, -⟩ := hbuild
      exact ⟨_, hl.symm⟩
    · intro hurl
      by_cases hpe : env.pathExists opts.input_path = true
      · simp only [buildCmdParts, hurl, Bool.false_eq_true, if_false, hpe, Bool.not_true,
          List.append_assoc, List.cons_append, List.nil_append] at hbuild
        rw [Except.ok.injEq, Prod.mk.injEq] at hbuild
        obtain ⟨hl, -⟩ := hbuild
        subst hl
        refine ⟨⟨_, rfl⟩, ?_⟩
        intro hmem
        rcases List.mem_cons.mp hmem with h | hmem
        · exact hexe h.symm
        rcases List.mem_cons.mp hmem with h | hmem
        · exact hin h.symm
        rcases List.mem_cons.mp hmem with h | hmem
        · exact absurd h (by decide)
        rcases List.mem_cons.mp hmem with h | hmem
        · exact hout h.symm
        rcases List.mem_cons.mp hmem with h | hmem
        · exact absurd h (by decide)
        rcases List.mem_cons.mp hmem with h | hmem
        · exact hsty h.symm
        rcases List.mem_append.mp hmem with hmem | hmem
        · rcases mem_patternArgs hmem with h | h | h | h
          · exact absurd h (by decide)
          · exact absurd h (by decide)
          · exact hinc h.symm
          · exact hign h.symm
        rcases List.mem_append.mp hmem with hmem | hmem
        · exact absurd (mem_flagArgs hmem) (by decide)
        · rcases List.mem_cons.mp hmem with h | hmem
          · exact absurd h (by decide)
          · exact absurd hmem (List.not_mem_nil _)
      · have hpe' : env.pathExists opts.input_path = false := by
          cases h : env.pathExists opts.input_path
          · rfl
          · exact absurd h hpe
        simp only [buildCmdParts, hurl, Bool.false_eq_true, if_false, hpe',
          Bool.not_false, if_true] at hbuild
        exact Except.noConfusion hbuild

/-- C1 witness: the theorem applied at the concrete Linux development
environment with local input `sample`. -/
theorem claim1_witness :
    (is_url optsA.input_path = true ↔ remoteSpec optsA.input_path)
    ∧ (∀ l p, buildCmdParts envA optsA exeDevLinux = Except.ok (l, p) →
        (is_url optsA.input_path = true →
          ∃ t, l = exeDevLinux :: "--remote" :: optsA.input_path :: t)
        ∧ (is_url optsA.input_path = false →
          (∃ t, l = exeDevLinux :: optsA.input_path :: t) ∧ "--remote" ∉ l)) :=
  claim1_remote_classification envA optsA exeDevLinux (by decide) (by decide) (by decide)
    (by decide) (by decide) (by decide)

/-- C2 counterexample: with the spec scenario input written `./sample`,
the builder classifies the input as remote — `./sample` splits into
exactly two slash-separated segments — so the built argument list
contains `--remote` and the input is not positional. -/
theorem claim2_counterexample :
    buildCmdParts envA optsDotSample exeDevLinux =
      Except.ok ([exeDevLinux, "--remote", "./sample", "-o", "/work/out.xml",
        "--style", "xml", "--quiet"], "/work/out.xml")
    ∧ "--remote" ∈ [exeDevLinux, "--remote", "./sample", "-o", "/work/out.xml",
        "--style", "xml", "--quiet"] :=
  ⟨rfl, by decide⟩

/-- C2 (amended): with input `sample` — no slash, hence classified local —
an existing directory, xml style, output name `out.xml`, no patterns, all
seven booleans false, the built list is exactly the executable, the
positional input, then `-o <cwd>/out.xml --style xml --quiet`: it ends
with the positional input followed by the output and style pair plus
`--quiet`, contains no `--remote`, and no optional pattern or boolean
switches. -/
theorem claim2_scenario (env : Env) (exePath : String)
    (hex : env.pathExists "sample" = true)
    (hexe : exePath ≠ "--remote")
    (hout : ospJoin env.cwd "out.xml" ≠ "--remote") :
    buildCmdParts env optsA exePath =
      Except.ok ([exePath, "sample", "-o", ospJoin env.cwd "out.xml",
        "--style", "xml", "--quiet"], ospJoin env.cwd "out.xml")
    ∧ "--remote" ∉ [exePath, "sample", "-o", ospJoin env.cwd "out.xml",
        "--style", "xml", "--quiet"] := by
  constructor
  · simp only [buildCmdParts, optsA]
    have hurl : is_url "sample" = false := by decide
    simp [hurl, hex, patternArgs, flagArgs, pyTruthy]
  · intro hmem
    simp only [List.mem_cons, List.not_mem_nil, or_false] at hmem
    rcases hmem with h | h | h | h | h | h | h
    · exact hexe h.symm
    · exact absurd h (by decide)
    · exact absurd h (by decide)
    · exact hout h.symm
    · exact absurd h (by decide)
    · exact absurd h (by decide)
    · exact absurd h (by decide)

/-- C2 witness: the amended scenario applied at the concrete Linux
development environment. -/
theorem claim2_witness :
    buildCmdParts envA optsA exeDevLinux =
      Except.ok ([exeDevLinux, "sample", "-o", ospJoin envA.cwd "out.xml",
        "--style", "xml", "--quiet"], ospJoin envA.cwd "out.xml")
    ∧ "--remote" ∉ [exeDevLinux, "sample", "-o", ospJoin envA.cwd "out.xml",
        "--style", "xml", "--quiet"] :=
  claim2_scenario envA exeDevLinux (by decide) (by decide) (by decide)

/-- C3 counterexample: the process exits 0, the expected output file is
absent after the process returns, and yet the overall result is a
success: the resolved placeholder executable path triggers the runner's
own file simulation (lines 150-155), after which the existence check
passes. -/
theorem claim3_counterexample :
    envSilent.proc = ProcOutcome.completed 0 "OUT" "ERR"
    ∧ envSilent.outFileAfterProc = false
    ∧ run_repomix_command envSilent optsRemote =
        PyResult.returned ⟨true, "OUT", "ERR", "/work/remote.md", true,
          [("/work/remote.md", "Simulated output for remote.md\nstdout: OUT\nstderr: ERR\n")]⟩ :=
  ⟨rfl, rfl, rfl⟩

/-- C3 (amended): when the process exits 0, the expected output file is
absent after the process returns, and the resolved executable path does
not contain `repomix-placeholder` (so the runner's placeholder
simulation does not apply), the classification is a failure — success
flag false, empty output path — whose error message embeds the captured
stdout and stderr. -/
theorem claim3_silent_failure (env : Env) (opts : PackOptions)
    (exePath outPath stdout stderr : String)
    (hproc : env.proc = ProcOutcome.completed 0 stdout stderr)
    (habs : env.outFileAfterProc = false)
    (hnosim : strContainsSub exePath "repomix-placeholder" = false) :
    (execAndClassify env opts exePath outPath).success = false
    ∧ (execAndClassify env opts exePath outPath).outFile = ""
    ∧ (stdout ≠ "" → ∃ a b, (execAndClassify env opts exePath outPath).stderr = a ++ stdout ++ b)
    ∧ (stderr ≠ "" → ∃ a b, (execAndClassify env opts exePath outPath).stderr = a ++ stderr ++ b) := by
  have hE : execAndClassify env opts exePath outPath =
      ⟨false, stdout, silentFailureMsg outPath stdout stderr, "", true, []⟩ := by
    unfold execAndClassify
    rw [hproc]
    simp [habs, hnosim]
  rw [hE]
  unfold silentFailureMsg
  refine ⟨rfl, rfl, ?_, ?_⟩
  · intro hso
    rw [if_neg (fun h => hso (by simpa using h))]
    by_cases hse : stderr = ""
    · rw [if_pos (by simpa using hse)]
      exact ⟨("Repomix command appeared to succeed (exit code 0) but output file was not found at "
          ++ outPath ++ ".") ++ " STDOUT: ", "",
        by simp only [String.append_assoc, String.append_empty]⟩
    · rw [if_neg (fun h => hse (by simpa using h))]
      exact ⟨("Repomix command appeared to succeed (exit code 0) but output file was not found at "
          ++ outPath ++ ".") ++ (" STDERR: " ++ stderr) ++ " STDOUT: ", "",
        by simp only [String.append_assoc, String.append_empty]⟩
  · intro hse
    by_cases hso : stdout = ""
    · rw [if_pos (by simpa using hso), if_neg (fun h => hse (by simpa using h))]
      exact ⟨("Repomix command appeared to succeed (exit code 0) but output file was not found at "
          ++ outPath ++ ".") ++ " STDERR: ", "",
        by simp only [String.append_assoc, String.append_empty]⟩
    · rw [if_neg (fun h => hso (by simpa using h)), if_neg (fun h => hse (by simpa using h))]
      exact ⟨("Repomix command appeared to succeed (exit code 0) but output file was not found at "
          ++ outPath ++ ".") ++ " STDERR: ", " STDOUT: " ++ stdout,
        by simp only [String.append_assoc, String.append_empty]⟩

/-- C3 witness: the amended theorem applied with a non-placeholder
executable path, exit code 0, output file absent, streams `OUT`/`ERR`. -/
theorem claim3_witness :
    (execAndClassify { envSilent with proc := ProcOutcome.completed 0 "OUT" "ERR" } optsA
      "/usr/local/bin/repomix-real" "/work/out.xml").success = false
    ∧ (execAndClassify { envSilent with proc := ProcOutcome.completed 0 "OUT" "ERR" } optsA
      "/usr/local/bin/repomix-real" "/work/out.xml").outFile = ""
    ∧ ("OUT" ≠ "" → ∃ a b, (execAndClassify { envSilent with proc := ProcOutcome.completed 0 "OUT" "ERR" } optsA
      "/usr/local/bin/repomix-real" "/work/out.xml").stderr = a ++ "OUT" ++ b)
    ∧ ("ERR" ≠ "" → ∃ a b, (execAndClassify { envSilent with proc := ProcOutcome.completed 0 "OUT" "ERR" } optsA
      "/usr/local/bin/repomix-real" "/work/out.xml").stderr = a ++ "ERR" ++ b) :=
  claim3_silent_failure { envSilent with proc := ProcOutcome.completed 0 "OUT" "ERR" } optsA
    "/usr/local/bin/repomix-real" "/work/out.xml" "OUT" "ERR" rfl rfl (by decide)

/-- C4 counterexample: in a development-mode Linux environment with a
package-manager shim present on the search path, the spec's resolution
order picks the shim, but the code's resolution procedure returns the
fixed development path instead — the code never consults the search
path, so the claimed resolution order is false of it. -/
theorem claim4_counterexample :
    specResolve (specEnvOf envShim) = Except.ok "/usr/bin/npx"
    ∧ get_bundled_repomix_path envShim ≠ PyResult.returned "/usr/bin/npx"
    ∧ ¬resolvesLikeSpec envShim := by
  refine ⟨rfl, by decide, ?_⟩
  intro h
  have := (h "/usr/bin/npx").mp rfl
  exact absurd this (by decide)

/-- C4 (amended): the resolution procedure never consults the search
path; it selects a platform-specific bundled filename and resolves it
under the application's bundle directory when frozen (the one-file
extraction directory when present, else next to the executable),
otherwise under the fixed development directory relative to the project
root; the runner then fails with the executable-not-found message when
the resolved path does not exist on disk, without launching any
process. -/
theorem claim4_resolution (env : Env) (name : String)
    (hname : platformExecutableName env.platform = some name) :
    (∀ f, get_bundled_repomix_path { env with whichLookup := f } = get_bundled_repomix_path env)
    ∧ get_bundled_repomix_path env = PyResult.returned
        (if env.frozen then
          ospJoin (ospJoin (if env.hasMeipass then env.meipass else env.executableDir)
            "bundled_repomix_bin") name
         else
          ospJoin (ospJoin (ospJoin (ospJoin env.projectRoot "build_prep") "repomix_cli")
            "dist") name)
    ∧ (∀ opts p, get_bundled_repomix_path env = PyResult.returned p →
        env.pathExists p = false →
        run_repomix_command env opts = PyResult.returned
          ⟨false, "", "Bundled Repomix executable not found at " ++ p ++
            ". Please ensure it\x27s packaged correctly.", "", false, []⟩) := by
  refine ⟨fun f => rfl, ?_, ?_⟩
  · rw [get_bundled_eq env name hname]
    cases hf : env.frozen
    · simp only [Bool.false_eq_true, if_false]
    · simp only [if_true]
  · intro opts p hres hmiss
    rw [run_unfold_returned env opts p hres, hmiss]
    rfl

/-- C4 witness: the amended resolution theorem applied on the Linux
development environment. -/
theorem claim4_witness :
    (∀ f, get_bundled_repomix_path { envA with whichLookup := f } = get_bundled_repomix_path envA)
    ∧ get_bundled_repomix_path envA = PyResult.returned
        (if envA.frozen then
          ospJoin (ospJoin (if envA.hasMeipass then envA.meipass else envA.executableDir)
            "bundled_repomix_bin") "repomix-placeholder-standalone-linux"
         else
          ospJoin (ospJoin (ospJoin (ospJoin envA.projectRoot "build_prep") "repomix_cli")
            "dist") "repomix-placeholder-standalone-linux")
    ∧ (∀ opts p, get_bundled_repomix_path envA = PyResult.returned p →
        envA.pathExists p = false →
        run_repomix_command envA opts = PyResult.returned
          ⟨false, "", "Bundled Repomix executable not found at " ++ p ++
            ". Please ensure it\x27s packaged correctly.", "", false, []⟩) :=
  claim4_resolution envA "repomix-placeholder-standalone-linux" rfl

/-- C5 counterexample: on an unsupported platform the resolution call
sits outside the `try` block, so the `EnvironmentError` escapes
`run_repomix_command` to the caller instead of being returned as a
structured failure value. -/
theorem claim5_counterexample :
    run_repomix_command { envA with platform := "freebsd" } optsA =
      PyResult.raised "Unsupported platform: freebsd" := rfl

/-- C5 (amended): on a supported platform (`win32`, `darwin`, or any
`linux*`), every invocation of the runner returns a structured 4-tuple
result — nothing is raised past the runner boundary — and in particular
every process-launch failure (`FileNotFoundError` or any other
launch-time exception) yields a failure value with the success flag
false. -/
theorem claim5_no_escape (env : Env) (opts : PackOptions)
    (hsup : env.platform = "win32" ∨ env.platform = "darwin" ∨
      strStartsWith env.platform "linux" = true) :
    ∃ o, run_repomix_command env opts = PyResult.returned o
      ∧ (env.proc = ProcOutcome.fileNotFound → o.success = false)
      ∧ (∀ m, env.proc = ProcOutcome.otherExn m → o.success = false) := by
  have hname : ∃ n, platformExecutableName env.platform = some n := by
    rcases hsup with h | h | h
    · exact ⟨"repomix-placeholder-standalone-win.exe", by rw [h]; decide⟩
    · exact ⟨"repomix-placeholder-standalone-macos", by rw [h]; decide⟩
    · have hw : (env.platform == "win32") = false := by
        cases hq : env.platform == "win32"
        · rfl
        · rw [eq_of_beq hq] at h
          exact absurd h (by decide)
      have hd : (env.platform == "darwin") = false := by
        cases hq : env.platform == "darwin"
        · rfl
        · rw [eq_of_beq hq] at h
          exact absurd h (by decide)
      exact ⟨"repomix-placeholder-standalone-linux",
        by unfold platformExecutableName; simp [hw, hd, h]⟩
  obtain ⟨n, hn⟩ := hname
  have hres : ∃ path, get_bundled_repomix_path env = PyResult.returned path := by
    rw [get_bundled_eq env n hn]
    cases env.frozen
    · exact ⟨_, rfl⟩
    · exact ⟨_, rfl⟩
  obtain ⟨path, hres⟩ := hres
  rw [run_unfold_returned env opts path hres]
  cases hex : env.pathExists path
  · exact ⟨_, rfl, fun _ => rfl, fun m _ => rfl⟩
  · simp only [Bool.not_true, Bool.false_eq_true, if_false]
    cases hperm : permissionFailure env path
    · cases hbuild : buildCmdParts env opts path
      · exact ⟨_, rfl, fun _ => rfl, fun m _ => rfl⟩
      next val =>
        obtain ⟨cmd, outp⟩ := val
        refine ⟨_, rfl, ?_, ?_⟩
        · intro hp
          unfold execAndClassify
          rw [hp]
        · intro m hp
          unfold execAndClassify
          rw [hp]
    next r =>
      exact ⟨r, rfl, fun _ => permissionFailure_success hperm,
        fun m _ => permissionFailure_success hperm⟩

/-- C5 witness: the amended theorem applied on a Linux environment whose
subprocess launch raises `FileNotFoundError`. -/
theorem claim5_witness :
    ∃ o, run_repomix_command { envA with proc := ProcOutcome.fileNotFound } optsA =
        PyResult.returned o
      ∧ (({ envA with proc := ProcOutcome.fileNotFound } : Env).proc =
          ProcOutcome.fileNotFound → o.success = false)
      ∧ (∀ m, ({ envA with proc := ProcOutcome.fileNotFound } : Env).proc =
          ProcOutcome.otherExn m → o.success = false) :=
  claim5_no_escape { envA with proc := ProcOutcome.fileNotFound } optsA (Or.inr (Or.inr rfl))

/-- A Boolean that is not true is false. -/
theorem boolFalse {b : Bool} (h : ¬ b = true) : b = false := by
  cases b
  · rfl
  · exact absurd rfl h

/-- The output path returned by the builder is always the working
directory joined with the configured output file name. -/
theorem buildCmdParts_outPath (env : Env) (opts : PackOptions) (exePath : String)
    (l : List String) (p : String)
    (hbuild : buildCmdParts env opts exePath = Except.ok (l, p)) :
    p = ospJoin env.cwd opts.output_file_name := by
  by_cases hurl : is_url opts.input_path = true
  · simp only [buildCmdParts, hurl, if_true] at hbuild
    rw [Except.ok.injEq, Prod.mk.injEq] at hbuild
    exact hbuild.2.symm
  · have hurl' := boolFalse hurl
    by_cases hpe : env.pathExists opts.input_path = true
    · simp only [buildCmdParts, hurl', Bool.false_eq_true, if_false, hpe, Bool.not_true] at hbuild
      rw [Except.ok.injEq, Prod.mk.injEq] at hbuild
      exact hbuild.2.symm
    · have hpe' := boolFalse hpe
      simp only [buildCmdParts, hurl', Bool.false_eq_true, if_false, hpe',
        Bool.not_false, if_true] at hbuild
      exact Except.noConfusion hbuild

/-- Unfolding of the runner when the resolution step raises. -/
theorem run_raised (env : Env) (opts : PackOptions) (msg : String)
    (h : get_bundled_repomix_path env = PyResult.raised msg) :
    run_repomix_command env opts = PyResult.raised msg := by
  unfold run_repomix_command
  rw [h]

/-- Unfolding of the runner down to the classification stage. -/
theorem run_eq_exec (env : Env) (opts : PackOptions) (exePath : String)
    (l : List String) (outPath : String)
    (hres : get_bundled_repomix_path env = PyResult.returned exePath)
    (hex : env.pathExists exePath = true)
    (hperm : permissionFailure env exePath = none)
    (hbuild : buildCmdParts env opts exePath = Except.ok (l, outPath)) :
    run_repomix_command env opts =
      PyResult.returned (execAndClassify env opts exePath outPath) := by
  rw [run_eq_of_checks env opts exePath hres hex hperm, hbuild]

/-- The classification stage returns the output path exactly on success
and the empty string on failure. -/
theorem execAndClassify_outFile (env : Env) (opts : PackOptions) (exePath outPath : String) :
    (execAndClassify env opts exePath outPath).outFile =
      (if (execAndClassify env opts exePath outPath).success then outPath else "") := by
  unfold execAndClassify
  cases env.proc with
  | completed rc sout serr =>
    by_cases hrc : (rc == 0) = true
    · simp only [hrc, if_true]
      by_cases hc : (env.outFileAfterProc ||
          (!env.outFileAfterProc && strContainsSub exePath "repomix-placeholder")) = true
      · simp [hc]
      · simp [boolFalse hc]
    · simp [boolFalse hrc]
  | fileNotFound => rfl
  | otherExn m => rfl

/-- C6: a local input that does not exist on disk makes the runner return
the input-not-found failure with no subprocess invocation: the `launched`
field is false and the runner performs no writes (once the resolution and
permission stages have passed, which is the only way the input check is
reached). -/
theorem claim6_input_not_found (env : Env) (opts : PackOptions) (exePath : String)
    (hres : get_bundled_repomix_path env = PyResult.returned exePath)
    (hex : env.pathExists exePath = true)
    (hperm : permissionFailure env exePath = none)
    (hurl : is_url opts.input_path = false)
    (hmiss : env.pathExists opts.input_path = false) :
    run_repomix_command env opts = PyResult.returned
      ⟨false, "", "Input path not found: " ++ opts.input_path, "", false, []⟩ := by
  have hbuild : buildCmdParts env opts exePath =
      Except.error ("Input path not found: " ++ opts.input_path) := by
    simp only [buildCmdParts, hurl, Bool.false_eq_true, if_false, hmiss,
      Bool.not_false, if_true]
  rw [run_eq_of_checks env opts exePath hres hex hperm, hbuild]

/-- C6 witness: the concrete Linux development environment with the
non-existent local input `missingdir`. -/
theorem claim6_witness :
    run_repomix_command envA
      ⟨"missingdir", "xml", "out.xml", none, none,
        false, false, false, false, false, false, false⟩ =
      PyResult.returned ⟨false, "", "Input path not found: " ++ "missingdir", "", false, []⟩ :=
  claim6_input_not_found envA
    ⟨"missingdir", "xml", "out.xml", none, none,
      false, false, false, false, false, false, false⟩
    exeDevLinux (by decide) (by decide) (by decide) (by decide) (by decide)

/-- Count and order profile of the seven switches: the segment is a
sublist of the full seven-switch list in source order, and each switch
occurs once exactly when its flag is true. -/
theorem flagArgs_profile (opts : PackOptions) :
    List.Sublist (flagArgs opts) allFlagSwitches
    ∧ (flagArgs opts).count "--no-file-summary" = (if opts.no_file_summary then 1 else 0)
    ∧ (flagArgs opts).count "--no-directory-structure" = (if opts.no_directory_structure then 1 else 0)
    ∧ (flagArgs opts).count "--output-show-line-numbers" = (if opts.show_line_numbers then 1 else 0)
    ∧ (flagArgs opts).count "--parsable-style" = (if opts.parsable_style then 1 else 0)
    ∧ (flagArgs opts).count "--compress" = (if opts.compress_code then 1 else 0)
    ∧ (flagArgs opts).count "--remove-comments" = (if opts.remove_comments then 1 else 0)
    ∧ (flagArgs opts).count "--remove-empty-lines" = (if opts.remove_empty_lines then 1 else 0) := by
  have key : ∀ g1 g2 g3 g4 g5 g6 g7 : Bool,
      List.Sublist (flagArgs ⟨"", "", "", none, none, g1, g2, g3, g4, g5, g6, g7⟩) allFlagSwitches
      ∧ (flagArgs ⟨"", "", "", none, none, g1, g2, g3, g4, g5, g6, g7⟩).count "--no-file-summary" = (if g1 then 1 else 0)
      ∧ (flagArgs ⟨"", "", "", none, none, g1, g2, g3, g4, g5, g6, g7⟩).count "--no-directory-structure" = (if g2 then 1 else 0)
      ∧ (flagArgs ⟨"", "", "", none, none, g1, g2, g3, g4, g5, g6, g7⟩).count "--output-show-line-numbers" = (if g3 then 1 else 0)
      ∧ (flagArgs ⟨"", "", "", none, none, g1, g2, g3, g4, g5, g6, g7⟩).count "--parsable-style" = (if g4 then 1 else 0)
      ∧ (flagArgs ⟨"", "", "", none, none, g1, g2, g3, g4, g5, g6, g7⟩).count "--compress" = (if g5 then 1 else 0)
      ∧ (flagArgs ⟨"", "", "", none, none, g1, g2, g3, g4, g5, g6, g7⟩).count "--remove-comments" = (if g6 then 1 else 0)
      ∧ (flagArgs ⟨"", "", "", none, none, g1, g2, g3, g4, g5, g6, g7⟩).count "--remove-empty-lines" = (if g7 then 1 else 0) := by
    intro g1 g2 g3 g4 g5 g6 g7
    cases g1 <;> cases g2 <;> cases g3 <;> cases g4 <;> cases g5 <;> cases g6 <;> cases g7 <;>
      exact ⟨by decide, by decide, by decide, by decide, by decide, by decide, by decide, by decide⟩
  obtain ⟨i, s, o, inc, ign, f1, f2, f3, f4, f5, f6, f7⟩ := opts
  exact key f1 f2 f3 f4 f5 f6 f7

/-- C7: every successfully built argument list ends with the seven-switch
segment followed by `--quiet` (so `--quiet` is always appended last); the
switch segment is a sublist of the seven switches in their fixed source
order, contains each switch exactly once when its flag is true, and not
at all when its flag is false. -/
theorem claim7_boolean_flags (env : Env) (opts : PackOptions) (exePath : String)
    (l : List String) (p : String)
    (hbuild : buildCmdParts env opts exePath = Except.ok (l, p)) :
    (∃ pre, l = pre ++ (flagArgs opts ++ ["--quiet"]))
    ∧ List.Sublist (flagArgs opts) allFlagSwitches
    ∧ (flagArgs opts).count "--no-file-summary" = (if opts.no_file_summary then 1 else 0)
    ∧ (flagArgs opts).count "--no-directory-structure" = (if opts.no_directory_structure then 1 else 0)
    ∧ (flagArgs opts).count "--output-show-line-numbers" = (if opts.show_line_numbers then 1 else 0)
    ∧ (flagArgs opts).count "--parsable-style" = (if opts.parsable_style then 1 else 0)
    ∧ (flagArgs opts).count "--compress" = (if opts.compress_code then 1 else 0)
    ∧ (flagArgs opts).count "--remove-comments" = (if opts.remove_comments then 1 else 0)
    ∧ (flagArgs opts).count "--remove-empty-lines" = (if opts.remove_empty_lines then 1 else 0) := by
  refine ⟨?_, flagArgs_profile opts⟩
  by_cases hurl : is_url opts.input_path = true
  · simp only [buildCmdParts, hurl, if_true] at hbuild
    rw [Except.ok.injEq, Prod.mk.injEq] at hbuild
    obtain ⟨hl, -⟩ := hbuild
    exact ⟨[exePath, "--remote", opts.input_path, "-o",
      ospJoin env.cwd opts.output_file_name, "--style", opts.output_style] ++ patternArgs opts,
      by rw [← hl]; simp [List.append_assoc]⟩
  · have hurl' := boolFalse hurl
    by_cases hpe : env.pathExists opts.input_path = true
    · simp only [buildCmdParts, hurl', Bool.false_eq_true, if_false, hpe, Bool.not_true] at hbuild
      rw [Except.ok.injEq, Prod.mk.injEq] at hbuild
      obtain ⟨hl, -⟩ := hbuild
      exact ⟨[exePath, opts.input_path, "-o",
        ospJoin env.cwd opts.output_file_name, "--style", opts.output_style] ++ patternArgs opts,
        by rw [← hl]; simp [List.append_assoc]⟩
    · have hpe' := boolFalse hpe
      simp only [buildCmdParts, hurl', Bool.false_eq_true, if_false, hpe',
        Bool.not_false, if_true] at hbuild
      exact Except.noConfusion hbuild

/-- C7 witness: options with four of the seven flags set and an include
pattern, on the concrete Linux development environment. -/
theorem claim7_witness :
    (∃ pre, [exeDevLinux, "sample", "-o", "/work/out.xml", "--style", "xml",
        "--include", "*.py", "--no-file-summary", "--output-show-line-numbers",
        "--compress", "--remove-empty-lines", "--quiet"] =
      pre ++ (flagArgs ⟨"sample", "xml", "out.xml", some "*.py", none,
        true, false, true, false, true, false, true⟩ ++ ["--quiet"]))
    ∧ List.Sublist (flagArgs ⟨"sample", "xml", "out.xml", some "*.py", none,
        true, false, true, false, true, false, true⟩) allFlagSwitches
    ∧ (flagArgs ⟨"sample", "xml", "out.xml", some "*.py", none,
        true, false, true, false, true, false, true⟩).count "--no-file-summary" = (if true then 1 else 0)
    ∧ (flagArgs ⟨"sample", "xml", "out.xml", some "*.py", none,
        true, false, true, false, true, false, true⟩).count "--no-directory-structure" = (if false then 1 else 0)
    ∧ (flagArgs ⟨"sample", "xml", "out.xml", some "*.py", none,
        true, false, true, false, true, false, true⟩).count "--output-show-line-numbers" = (if true then 1 else 0)
    ∧ (flagArgs ⟨"sample", "xml", "out.xml", some "*.py", none,
        true, false, true, false, true, false, true⟩).count "--parsable-style" = (if false then 1 else 0)
    ∧ (flagArgs ⟨"sample", "xml", "out.xml", some "*.py", none,
        true, false, true, false, true, false, true⟩).count "--compress" = (if true then 1 else 0)
    ∧ (flagArgs ⟨"sample", "xml", "out.xml", some "*.py", none,
        true, false, true, false, true, false, true⟩).count "--remove-comments" = (if false then 1 else 0)
    ∧ (flagArgs ⟨"sample", "xml", "out.xml", some "*.py", none,
        true, false, true, false, true, false, true⟩).count "--remove-empty-lines" = (if true then 1 else 0) :=
  claim7_boolean_flags envA
    ⟨"sample", "xml", "out.xml", some "*.py", none, true, false, true, false, true, false, true⟩
    exeDevLinux
    [exeDevLinux, "sample", "-o", "/work/out.xml", "--style", "xml",
      "--include", "*.py", "--no-file-summary", "--output-show-line-numbers",
      "--compress", "--remove-empty-lines", "--quiet"]
    "/work/out.xml" rfl

/-- C8: on a non-Windows platform, when the resolved executable exists
but lacks execute permission, the runner attempts the chmod-0755 repair
and re-checks: a raising chmod yields the repair-error failure, a
still-not-executable file after the grant yields the
not-executable-after-chmod failure, and a successful grant makes the
invocation behave exactly as if the file had been executable from the
start (execution proceeds normally). -/
theorem claim8_permission_repair (env : Env) (opts : PackOptions) (exePath : String)
    (hres : get_bundled_repomix_path env = PyResult.returned exePath)
    (hex : env.pathExists exePath = true)
    (hwin : env.platform ≠ "win32")
    (hx : env.xOkBefore = false) :
    (∀ m, env.chmodExn = some m →
      run_repomix_command env opts = PyResult.returned
        ⟨false, "", "Error making Repomix executable (" ++ exePath ++ "): " ++ m,
          "", false, []⟩)
    ∧ (env.chmodExn = none → env.xOkAfter = false →
      run_repomix_command env opts = PyResult.returned
        ⟨false, "", "Bundled Repomix executable (" ++ exePath ++
          ") found but is not executable even after chmod.", "", false, []⟩)
    ∧ (env.chmodExn = none → env.xOkAfter = true →
      run_repomix_command env opts =
        run_repomix_command { env with xOkBefore := true } opts) := by
  have hbw : (env.platform == "win32") = false := by
    cases hq : env.platform == "win32"
    · rfl
    · exact absurd (eq_of_beq hq) hwin
  have hPermSome : ∀ r, permissionFailure env exePath = some r →
      run_repomix_command env opts = PyResult.returned r := by
    intro r hperm
    rw [run_unfold_returned env opts exePath hres, hex]
    simp only [Bool.not_true, Bool.false_eq_true, if_false, hperm]
  refine ⟨?_, ?_, ?_⟩
  · intro m hm
    apply hPermSome
    unfold permissionFailure
    rw [hbw, hx, hm]
    rfl
  · intro hm hafter
    apply hPermSome
    unfold permissionFailure
    rw [hbw, hx, hm, hafter]
    rfl
  · intro hm hafter
    have h1 : permissionFailure env exePath = none := by
      unfold permissionFailure
      rw [hbw, hx, hm, hafter]
      rfl
    have hres2 : get_bundled_repomix_path { env with xOkBefore := true } =
        PyResult.returned exePath := hres
    have hex2 : ({ env with xOkBefore := true } : Env).pathExists exePath = true := hex
    have h2 : permissionFailure { env with xOkBefore := true } exePath = none := by
      unfold permissionFailure
      rw [show ({ env with xOkBefore := true } : Env).platform = env.platform from rfl, hbw]
      rw [show ({ env with xOkBefore := true } : Env).xOkBefore = true from rfl]
      rfl
    rw [run_eq_of_checks env opts exePath hres hex h1,
      run_eq_of_checks { env with xOkBefore := true } opts exePath hres2 hex2 h2]
    rfl

/-- C8 witness: a Linux environment whose resolved executable initially
lacks execute permission and whose chmod repair succeeds. -/
theorem claim8_witness :
    (∀ m, ({ envA with xOkBefore := false } : Env).chmodExn = some m →
      run_repomix_command { envA with xOkBefore := false } optsA = PyResult.returned
        ⟨false, "", "Error making Repomix executable (" ++ exeDevLinux ++ "): " ++ m,
          "", false, []⟩)
    ∧ (({ envA with xOkBefore := false } : Env).chmodExn = none →
      ({ envA with xOkBefore := false } : Env).xOkAfter = false →
      run_repomix_command { envA with xOkBefore := false } optsA = PyResult.returned
        ⟨false, "", "Bundled Repomix executable (" ++ exeDevLinux ++
          ") found but is not executable even after chmod.", "", false, []⟩)
    ∧ (({ envA with xOkBefore := false } : Env).chmodExn = none →
      ({ envA with xOkBefore := false } : Env).xOkAfter = true →
      run_repomix_command { envA with xOkBefore := false } optsA =
        run_repomix_command { { envA with xOkBefore := false } with xOkBefore := true } optsA) :=
  claim8_permission_repair { envA with xOkBefore := false } optsA exeDevLinux
    (by decide) (by decide) (by decide) rfl

/-- C9: when the process exits 0, the output file is absent after it
returns, and the resolved executable path contains
`repomix-placeholder`, the runner itself writes the output file — the
outcome's write list holds the simulated content including the captured
streams — and returns success carrying that file path. -/
theorem claim9_placeholder_write (env : Env) (opts : PackOptions) (exePath : String)
    (l : List String) (outPath stdout stderr : String)
    (hres : get_bundled_repomix_path env = PyResult.returned exePath)
    (hex : env.pathExists exePath = true)
    (hperm : permissionFailure env exePath = none)
    (hbuild : buildCmdParts env opts exePath = Except.ok (l, outPath))
    (hproc : env.proc = ProcOutcome.completed 0 stdout stderr)
    (habs : env.outFileAfterProc = false)
    (hsim : strContainsSub exePath "repomix-placeholder" = true) :
    run_repomix_command env opts = PyResult.returned
      ⟨true, stdout, stderr, outPath, true,
        [(outPath, simulatedContent opts.output_file_name stdout stderr)]⟩ := by
  rw [run_eq_exec env opts exePath l outPath hres hex hperm hbuild]
  unfold execAndClassify
  rw [hproc]
  simp [habs, hsim]

/-- C9 witness: the silent-exit environment with the placeholder dev
path and a remote input. -/
theorem claim9_witness :
    run_repomix_command envSilent optsRemote = PyResult.returned
      ⟨true, "OUT", "ERR", "/work/remote.md", true,
        [("/work/remote.md", simulatedContent optsRemote.output_file_name "OUT" "ERR")]⟩ :=
  claim9_placeholder_write envSilent optsRemote exeDevLinux
    [exeDevLinux, "--remote", "https://github.com/octocat/Spoon-Knife", "-o",
      "/work/remote.md", "--style", "md", "--quiet"]
    "/work/remote.md" "OUT" "ERR" (by decide) (by decide) (by decide) rfl rfl rfl (by decide)

/-- C10: whatever outcome the runner returns (it must have returned, not
raised), the success flag is true exactly when the returned output file
path is non-empty, and every failure outcome carries the empty output
path; the only hypothesis on the environment is that the working
directory (as reported by `os.getcwd`) is a non-empty string. -/
theorem claim10_success_iff_path (env : Env) (opts : PackOptions) (o : RunOutcome)
    (hcwd : env.cwd ≠ "")
    (hrun : run_repomix_command env opts = PyResult.returned o) :
    (o.success = true ↔ o.outFile ≠ "") ∧ (o.success = false → o.outFile = "") := by
  cases hg : get_bundled_repomix_path env with
  | raised msg =>
    rw [run_raised env opts msg hg] at hrun
    exact PyResult.noConfusion hrun
  | returned path =>
    rw [run_unfold_returned env opts path hg] at hrun
    cases hex : env.pathExists path with
    | false =>
      rw [hex] at hrun
      simp only [Bool.not_false, if_true] at hrun
      injection hrun with h
      subst h
      exact ⟨by simp, fun _ => rfl⟩
    | true =>
      rw [hex] at hrun
      simp only [Bool.not_true, Bool.false_eq_true, if_false] at hrun
      cases hperm : permissionFailure env path with
      | some r =>
        simp only [hperm] at hrun
        injection hrun with h
        subst h
        have hs := permissionFailure_success hperm
        have ho : r.outFile = "" := by
          unfold permissionFailure at hperm
          split at hperm
          · cases hperm
          · split at hperm
            · cases hperm
            · split at hperm
              · cases hperm
                rfl
              · split at hperm
                · cases hperm
                  rfl
                · cases hperm
        refine ⟨?_, fun _ => ho⟩
        constructor
        · intro h
          rw [h] at hs
          cases hs
        · intro h
          exact absurd ho h
      | none =>
        simp only [hperm] at hrun
        cases hbuild : buildCmdParts env opts path with
        | error msg =>
          simp only [hbuild] at hrun
          injection hrun with h
          subst h
          exact ⟨by simp, fun _ => rfl⟩
        | ok pr =>
          obtain ⟨cmd, ofp⟩ := pr
          simp only [hbuild] at hrun
          injection hrun with h
          subst h
          have hofp : ofp = ospJoin env.cwd opts.output_file_name :=
            buildCmdParts_outPath env opts path cmd ofp hbuild
          have hne : ofp ≠ "" := by
            rw [hofp]
            exact ospJoin_ne_empty env.cwd opts.output_file_name hcwd
          have hout := execAndClassify_outFile env opts path ofp
          constructor
          · constructor
            · intro hs
              rw [hout, hs, if_pos rfl]
              exact hne
            · intro hnefile
              cases hs : (execAndClassify env opts path ofp).success
              · rw [hout, hs] at hnefile
                simp at hnefile
              · rfl
          · intro hs
            rw [hout, hs]
            simp

/-- C10 witness: the invariant applied at the concrete successful run on
the Linux development environment. -/
theorem claim10_witness :
    ((⟨true, "", "", "/work/out.xml", true, []⟩ : RunOutcome).success = true ↔
      (⟨true, "", "", "/work/out.xml", true, []⟩ : RunOutcome).outFile ≠ "")
    ∧ ((⟨true, "", "", "/work/out.xml", true, []⟩ : RunOutcome).success = false →
      (⟨true, "", "", "/work/out.xml", true, []⟩ : RunOutcome).outFile = "") :=
  claim10_success_iff_path envA optsA ⟨true, "", "", "/work/out.xml", true, []⟩
    (by decide) rfl
